import Mathlib

/-!
Shallow embedding of the `toko` storefront backend, restricted to the parts
the verified claims talk about: the order models (`internal/models/order.go`,
`models.Product`), the in-memory repositories
(`internal/repositories/product_repo_mock.go`, `MockOrderRepository`), the
order service (`internal/services/order_service.go`) and the RabbitMQ client
(`pkg/rabbitmq`: `Publish`, `PublishOrderCreated`, `ConsumeOrderEvents`).

Modelling conventions:
- Go `float64` currency values become `Rat` (exact arithmetic over the same
  sequence of additions/multiplications the code performs).
- Go `int` becomes `Int`; `time.Time` becomes a `Nat` tick supplied by the
  caller (one `now` per call, as `time.Now()` in the code).
- Go maps backing the mock repositories become association lists with
  first-match lookup; insertion conses the new binding, which is
  observationally the map overwrite the code performs.
- `uuid.New().String()` becomes an explicit `newId` argument (the repository
  also generates one, `genId`, used only when the incoming id is empty,
  mirroring `MockOrderRepository.Create`).
- The order repository `Create` outcome and the publish outcome are injected
  as `persistOk`/`publishOk` booleans: the service is written against the
  `OrderRepository` interface whose `Create` may fail (the in-memory mock
  always yields `persistOk = true`), and the broker publish may fail.
- Wrapped Go error strings (`fmt.Errorf`) become structured `OrderError`
  values carrying the same data the format string interpolates.
-/

/-- `models.Product` (`internal/models`): id, name, description, price, stock. -/
structure Product where
  id : String
  name : String
  description : String
  price : Rat
  stock : Int
deriving DecidableEq, Repr

/-- `models.OrderItem` (`internal/models/order.go`): product reference,
quantity, unit price snapshot. -/
structure OrderItem where
  productID : String
  quantity : Int
  price : Rat
deriving DecidableEq, Repr

/-- `models.Order` (`internal/models/order.go`). -/
structure Order where
  id : String
  userID : String
  items : List OrderItem
  totalAmount : Rat
  status : String
  createdAt : Nat
  updatedAt : Nat
deriving DecidableEq, Repr

/-- Structured rendering of the `fmt.Errorf` error strings produced by the
order service and the mock repositories. -/
inductive OrderError where
  | productNotFound (productID : String)
  | insufficientStock (name : String) (requested available : Int)
  | persistenceFailure
  | invalidStatus (status : String)
  | orderNotFound (id : String)
deriving DecidableEq, Repr

/-- First-match lookup in an association list; the observation function of the
Go maps backing `MockProductRepository.products` and
`MockOrderRepository.orders`. -/
def lookupA {α : Type} : List (String × α) → String → Option α
  | [], _ => none
  | (k, v) :: rest, key => if k = key then some v else lookupA rest key

/-- `MockProductRepository.GetByID` (`product_repo_mock.go` lines 37-46):
return the product, or a not-found error. -/
def mockProductGetByID (products : List (String × Product)) (id : String) :
    Except OrderError Product :=
  match lookupA products id with
  | none => .error (.productNotFound id)
  | some p => .ok p

/-- `MockOrderRepository.GetByID` (`part_003`): return the stored order, or a
not-found error; `OrderService.GetOrderByID` forwards it unchanged. -/
def mockOrderGetByID (orders : List (String × Order)) (id : String) :
    Except OrderError Order :=
  match lookupA orders id with
  | none => .error (.orderNotFound id)
  | some o => .ok o

/-- `MockOrderRepository.Create` (`part_003`): generate an id when the
incoming one is empty, stamp both timestamps with `time.Now()`, store a copy
under the id.  The Go method mutates the order through its pointer, so the
caller observes the updated order; the model returns it alongside the new
store. -/
def mockOrderCreate (orders : List (String × Order)) (o : Order)
    (genId : String) (now : Nat) : Order × List (String × Order) :=
  let stored : Order :=
    { o with
      id := if o.id = "" then genId else o.id
      createdAt := now
      updatedAt := now }
  (stored, (stored.id, stored) :: orders)

/-- `MockOrderRepository.UpdateStatus` (`part_003`): look the order up, fail
with a not-found error when absent, else overwrite its status and refresh
`UpdatedAt`. -/
def mockOrderUpdateStatus (orders : List (String × Order)) (id status : String)
    (now : Nat) : Except OrderError (List (String × Order)) :=
  match lookupA orders id with
  | none => .error (.orderNotFound id)
  | some o => .ok ((id, { o with status := status, updatedAt := now }) :: orders)

/-- Combined state of the two repositories the order service touches. -/
structure ServiceState where
  products : List (String × Product)
  orders : List (String × Order)
deriving DecidableEq, Repr

/-- Observable effects of one `CreateOrder` run, in program order:
`persist ok` records the `orderRepo.Create` call and its outcome, and
`publishAttempt` records the hand-off to the RabbitMQ client. -/
inductive OrderEvent where
  | persist (ok : Bool)
  | publishAttempt
deriving DecidableEq, Repr

/-- The validation/pricing loop of `OrderService.CreateOrder`
(`order_service.go` lines 47-66): per item, fetch the product (fail with
not-found if absent), fail with insufficient stock when
`product.Stock < item.Quantity`, else append the snapshot item and add
`price * quantity` to the running total. -/
def processItemsLoop (products : List (String × Product)) :
    List OrderItem → List OrderItem → Rat →
    Except OrderError (List OrderItem × Rat)
  | [], acc, total => .ok (acc, total)
  | item :: rest, acc, total =>
    match lookupA products item.productID with
    | none => .error (.productNotFound item.productID)
    | some product =>
      if product.stock < item.quantity then
        .error (.insufficientStock product.name item.quantity product.stock)
      else
        processItemsLoop products rest
          (acc ++ [{ productID := item.productID, quantity := item.quantity,
                     price := product.price }])
          (total + product.price * (item.quantity : Rat))

/-- Result of one `CreateOrder` run: the returned value, the repository state
after the run, and the effect trace. -/
structure CreateResult where
  result : Except OrderError Order
  state : ServiceState
  trace : List OrderEvent
deriving Repr

/-- `OrderService.CreateOrder` (`order_service.go` lines 41-109): validate and
price the items, build the order (fresh uuid `newId`, status `"pending"`,
both timestamps `now`), persist it via `orderRepo.Create`, and on success
attempt the publish; a publish failure is only logged and the persisted order
is returned either way, while a persist failure aborts with an error before
any publish. -/
def createOrder (st : ServiceState) (orderRequest : Order)
    (newId genId : String) (now : Nat) (persistOk publishOk : Bool) :
    CreateResult :=
  match processItemsLoop st.products orderRequest.items [] 0 with
  | .error e => { result := .error e, state := st, trace := [] }
  | .ok (processedItems, totalAmount) =>
    let newOrder : Order :=
      { id := newId
        userID := orderRequest.userID
        items := processedItems
        totalAmount := totalAmount
        status := "pending"
        createdAt := now
        updatedAt := now }
    if persistOk then
      let (storedOrder, newOrders) := mockOrderCreate st.orders newOrder genId now
      -- Publish outcome (`publishOk`) only selects which log line runs.
      { result := .ok storedOrder
        state := { st with orders := newOrders }
        trace := [.persist true, .publishAttempt] }
    else
      { result := .error .persistenceFailure, state := st,
        trace := [.persist false] }

/-- The fixed status enum of `OrderService.UpdateOrderStatus`
(`order_service.go` line 114). -/
def validStatuses : List String :=
  ["pending", "processing", "shipped", "delivered", "cancelled"]

/-- Result of one `UpdateOrderStatus` run; `repoCalled` records whether
`orderRepo.UpdateStatus` was invoked. -/
structure UpdateResult where
  result : Except OrderError Unit
  orders : List (String × Order)
  repoCalled : Bool
deriving Repr

/-- `OrderService.UpdateOrderStatus` (`order_service.go` lines 112-131):
reject a status outside the enum before touching the repository, else
delegate to `orderRepo.UpdateStatus`. -/
def updateOrderStatus (orders : List (String × Order)) (id status : String)
    (now : Nat) : UpdateResult :=
  if validStatuses.contains status then
    match mockOrderUpdateStatus orders id status now with
    | .error e => { result := .error e, orders := orders, repoCalled := true }
    | .ok newOrders => { result := .ok (), orders := newOrders, repoCalled := true }
  else
    { result := .error (.invalidStatus status), orders := orders,
      repoCalled := false }

/-- A JSON leaf value of the order-created payload (the Go code publishes a
`map[string]interface` whose values are strings or a float). -/
inductive JsonValue where
  | str (s : String)
  | num (q : Rat)
deriving DecidableEq, Repr

/-- The serialized payload handed to the broker: `json.Marshal` of the
key/value map, modelled as the field list it encodes. -/
abbrev JsonBody := List (String × JsonValue)

/-- The `order.created` message body built by `OrderService.CreateOrder`
(`order_service.go` lines 88-94): keys orderID, userID, status, total. -/
def orderCreatedMessage (o : Order) : JsonBody :=
  [("orderID", .str o.id), ("userID", .str o.userID),
   ("status", .str o.status), ("total", .num o.totalAmount)]

/-- `amqp.Transient` delivery mode. -/
def amqpTransient : Nat := 1

/-- `amqp.Persistent` delivery mode. -/
def amqpPersistent : Nat := 2

/-- A Go `amqp.Publishing` struct, restricted to the fields the client sets:
an unset `DeliveryMode` stays at the zero value 0, which the broker treats as
transient. -/
structure Publishing where
  contentType : String
  deliveryMode : Nat
  body : JsonBody
deriving DecidableEq, Repr

/-- One message as handed to `Channel.Publish`: exchange, routing key, and
the publishing record. -/
structure PublishedMsg where
  exchange : String
  routingKey : String
  publishing : Publishing
deriving DecidableEq, Repr

/-- `Client.Publish` (`part_000` lines 82-116): declares the direct exchange
and publishes the given body with content-type `application/json`; the
`amqp.Publishing` literal sets no `DeliveryMode`, leaving the zero value.
Channel/declare failures return before publishing and are not modelled: the
claims concern the attributes of messages that are published. -/
def clientPublish (exchange routingKey : String) (body : JsonBody) :
    PublishedMsg :=
  { exchange := exchange
    routingKey := routingKey
    publishing :=
      { contentType := "application/json", deliveryMode := 0, body := body } }

/-- `Client.PublishOrderCreated`, exchange variant (`part_000` lines
168-176): marshal the map and delegate to `Publish "order" "order.created"`. -/
def publishOrderCreatedV1 (orderData : JsonBody) : PublishedMsg :=
  clientPublish "order" "order.created" orderData

/-- `Client.PublishOrderCreated`, default-exchange variant (`part_000` lines
260-291): marshal the map and publish it on the default exchange with routing
key `order_queue`, content-type `application/json` and
`DeliveryMode: amqp.Persistent`. -/
def publishOrderCreatedV2 (orderData : JsonBody) : PublishedMsg :=
  { exchange := ""
    routingKey := "order_queue"
    publishing :=
      { contentType := "application/json", deliveryMode := amqpPersistent,
        body := orderData } }

/-- What the consumer goroutine does with one delivery after the handler
returns: a manual ack, a manual nack (with its multiple/requeue flags), or
nothing. -/
inductive AckAction where
  | ack (multiple : Bool)
  | nack (multiple requeue : Bool)
  | noAction
deriving DecidableEq, Repr

/-- A consumer as registered with `Channel.Consume`: the queue it consumes
and its auto-ack flag, plus the per-delivery reaction to the handler outcome
(`handlerOk = true` when the message handler returned nil). -/
structure ConsumerSpec where
  queue : String
  autoAck : Bool
  onDelivery : Bool → AckAction

/-- `Client.ConsumeOrderEvents`, exchange variant (`part_000` lines 119-166):
consumes queue `"orders"` with auto-ack enabled; a handler error is only
logged, and no manual ack or nack is ever issued. -/
def consumeOrderEventsV1 : ConsumerSpec :=
  { queue := "orders"
    autoAck := true
    onDelivery := fun _ => .noAction }

/-- `Client.ConsumeOrderEvents`, default-exchange variant (`part_000` lines
296-352): consumes `"order_queue"` with auto-ack disabled; on handler success
the delivery is acked (`msg.Ack(false)`), on handler failure it is nacked
with requeue (`msg.Nack(false, true)`). -/
def consumeOrderEventsV2 : ConsumerSpec :=
  { queue := "order_queue"
    autoAck := false
    onDelivery := fun handlerOk =>
      if handlerOk then .ack false else .nack false true }

/-- The request validation of `OrderHandler.HandleCreateOrder` (`part_004`
lines 80-85): the handler rejects the request with 400 when the user id is
empty or the item list is empty, before calling the service. -/
def handleCreateOrderRejects (orderRequest : Order) : Bool :=
  orderRequest.userID = "" || orderRequest.items.length = 0

/-- An item passes the per-item validation of the `CreateOrder` loop: its
product exists and the requested quantity does not exceed the stock. -/
def itemOk (products : List (String × Product)) (i : OrderItem) : Bool :=
  match lookupA products i.productID with
  | none => false
  | some p => !(p.stock < i.quantity)

/-- The product price the loop snapshots for an item (call-time price). -/
def priceOf (products : List (String × Product)) (i : OrderItem) : Rat :=
  ((lookupA products i.productID).map Product.price).getD 0

/-- The processed item the loop appends for a valid request item. -/
def snapshotItem (products : List (String × Product)) (i : OrderItem) :
    OrderItem :=
  { productID := i.productID, quantity := i.quantity, price := priceOf products i }

/-- Sum over the items of call-time product price times quantity. -/
def itemsTotal (products : List (String × Product)) : List OrderItem → Rat
  | [] => 0
  | i :: rest => priceOf products i * (i.quantity : Rat) + itemsTotal products rest

theorem processItemsLoop_ok_of_valid (products : List (String × Product))
    (items : List OrderItem) (acc : List OrderItem) (total : Rat)
    (h : ∀ i ∈ items, itemOk products i = true) :
    processItemsLoop products items acc total =
      .ok (acc ++ items.map (snapshotItem products),
           total + itemsTotal products items) := by
  induction items generalizing acc total with
  | nil => simp [processItemsLoop, itemsTotal]
  | cons i rest ih =>
    have hi := h i (by simp)
    unfold itemOk at hi
    cases hl : lookupA products i.productID with
    | none => rw [hl] at hi; simp at hi
    | some p =>
      rw [hl] at hi
      simp only [Bool.not_eq_true', decide_eq_false_iff_not] at hi
      have hstock : ¬ p.stock < i.quantity := hi
      simp only [processItemsLoop, hl, if_neg hstock]
      rw [ih _ _ (fun j hj => h j (List.mem_cons_of_mem _ hj))]
      simp [snapshotItem, priceOf, itemsTotal, hl, List.append_assoc, add_assoc]

theorem processItemsLoop_append_of_valid (products : List (String × Product))
    (pre xs : List OrderItem) (acc : List OrderItem) (total : Rat)
    (h : ∀ i ∈ pre, itemOk products i = true) :
    processItemsLoop products (pre ++ xs) acc total =
      processItemsLoop products xs (acc ++ pre.map (snapshotItem products))
        (total + itemsTotal products pre) := by
  induction pre generalizing acc total with
  | nil => simp [itemsTotal]
  | cons i rest ih =>
    have hi := h i (by simp)
    unfold itemOk at hi
    cases hl : lookupA products i.productID with
    | none => rw [hl] at hi; simp at hi
    | some p =>
      rw [hl] at hi
      simp only [Bool.not_eq_true', decide_eq_false_iff_not] at hi
      have hstock : ¬ p.stock < i.quantity := hi
      simp only [List.cons_append, processItemsLoop, hl, if_neg hstock,
        List.append_eq]
      rw [ih _ _ (fun j hj => h j (List.mem_cons_of_mem _ hj))]
      simp [snapshotItem, priceOf, itemsTotal, hl, List.append_assoc, add_assoc]

/-- The concrete product of the spec's worked scenario: price 10.00, stock 5. -/
def sampleProduct : Product :=
  { id := "p1", name := "P1", description := "", price := 10, stock := 5 }

/-- Product store holding only `sampleProduct`, empty order store. -/
def sampleState : ServiceState :=
  { products := [("p1", sampleProduct)], orders := [] }

/-- The spec's worked request: user u1 orders 2 of p1. -/
def sampleRequest : Order :=
  { id := "", userID := "u1", items := [⟨"p1", 2, 0⟩], totalAmount := 0,
    status := "", createdAt := 0, updatedAt := 0 }

/-- Claim C1: when validation passes and persistence succeeds, a publish
failure leaves `CreateOrder` returning the persisted order with no error, the
order stays in the store, and result and store agree exactly with the
successful-publish run. -/
theorem createOrder_publish_failure_nonfatal
    (st : ServiceState) (orderRequest : Order) (newId genId : String)
    (now : Nat) (pr : List OrderItem × Rat)
    (hvalid : processItemsLoop st.products orderRequest.items [] 0 = .ok pr) :
    ∃ o : Order,
      (createOrder st orderRequest newId genId now true false).result = .ok o ∧
      lookupA (createOrder st orderRequest newId genId now true false).state.orders
        o.id = some o ∧
      (createOrder st orderRequest newId genId now true false).result =
        (createOrder st orderRequest newId genId now true true).result ∧
      (createOrder st orderRequest newId genId now true false).state =
        (createOrder st orderRequest newId genId now true true).state := by
  obtain ⟨pi, total⟩ := pr
  refine ⟨{ id := if newId = "" then genId else newId,
            userID := orderRequest.userID, items := pi, totalAmount := total,
            status := "pending", createdAt := now, updatedAt := now },
          ?_, ?_, ?_, ?_⟩ <;>
    simp [createOrder, hvalid, mockOrderCreate, lookupA]

/-- Claim C1 witness: the worked scenario with a failing publish. -/
theorem createOrder_publish_failure_nonfatal_witness :
    ∃ o : Order,
      (createOrder sampleState sampleRequest "oid-1" "gid-1" 7 true false).result = .ok o ∧
      lookupA (createOrder sampleState sampleRequest "oid-1" "gid-1" 7 true false).state.orders
        o.id = some o ∧
      (createOrder sampleState sampleRequest "oid-1" "gid-1" 7 true false).result =
        (createOrder sampleState sampleRequest "oid-1" "gid-1" 7 true true).result ∧
      (createOrder sampleState sampleRequest "oid-1" "gid-1" 7 true false).state =
        (createOrder sampleState sampleRequest "oid-1" "gid-1" 7 true true).state :=
  createOrder_publish_failure_nonfatal sampleState sampleRequest "oid-1" "gid-1" 7
    ([⟨"p1", 2, 10⟩], 0 + 10 * ((2 : Int) : Rat)) (by rfl)

/-- Claim C2: for a request whose items all reference existing products with
sufficient stock, `CreateOrder` returns an order whose total is the sum of
call-time price times quantity, whose status is pending, and which
`GetOrderByID` retrieves from the post-call store. -/
theorem createOrder_total_and_retrievable
    (st : ServiceState) (orderRequest : Order) (newId genId : String)
    (now : Nat) (publishOk : Bool)
    (hvalid : ∀ i ∈ orderRequest.items, itemOk st.products i = true) :
    ∃ o : Order,
      (createOrder st orderRequest newId genId now true publishOk).result = .ok o ∧
      o.totalAmount = itemsTotal st.products orderRequest.items ∧
      o.status = "pending" ∧
      mockOrderGetByID
        (createOrder st orderRequest newId genId now true publishOk).state.orders
        o.id = .ok o := by
  refine ⟨{ id := if newId = "" then genId else newId,
            userID := orderRequest.userID,
            items := [] ++ orderRequest.items.map (snapshotItem st.products),
            totalAmount := 0 + itemsTotal st.products orderRequest.items,
            status := "pending", createdAt := now, updatedAt := now },
          ?_, ?_, ?_, ?_⟩ <;>
    simp [createOrder,
      processItemsLoop_ok_of_valid st.products orderRequest.items [] 0 hvalid,
      mockOrderCreate, mockOrderGetByID, lookupA]

/-- Claim C2 witness: the worked scenario (total 20, status pending,
retrievable). -/
theorem createOrder_total_and_retrievable_witness :
    ∃ o : Order,
      (createOrder sampleState sampleRequest "oid-2" "gid-2" 7 true true).result = .ok o ∧
      o.totalAmount = itemsTotal sampleState.products sampleRequest.items ∧
      o.status = "pending" ∧
      mockOrderGetByID
        (createOrder sampleState sampleRequest "oid-2" "gid-2" 7 true true).state.orders
        o.id = .ok o :=
  createOrder_total_and_retrievable sampleState sampleRequest "oid-2" "gid-2" 7 true
    (by decide)

/-- Claim C5: publish never precedes the durable write.  Every run is one of:
validation failure (empty trace, error), persistence failure (persist event
only, persistence error propagated, nothing published), or successful persist
followed by the publish attempt. -/
theorem createOrder_write_then_publish (st : ServiceState)
    (orderRequest : Order) (newId genId : String) (now : Nat)
    (persistOk publishOk : Bool) :
    ((createOrder st orderRequest newId genId now persistOk publishOk).trace = [] ∧
      ∃ e, (createOrder st orderRequest newId genId now persistOk publishOk).result =
        .error e) ∨
    (persistOk = false ∧
      (createOrder st orderRequest newId genId now persistOk publishOk).trace =
        [.persist false] ∧
      (createOrder st orderRequest newId genId now persistOk publishOk).result =
        .error .persistenceFailure) ∨
    (persistOk = true ∧
      (createOrder st orderRequest newId genId now persistOk publishOk).trace =
        [.persist true, .publishAttempt] ∧
      ∃ o, (createOrder st orderRequest newId genId now persistOk publishOk).result =
        .ok o) := by
  cases hpl : processItemsLoop st.products orderRequest.items [] 0 with
  | error e =>
    left
    refine ⟨by simp [createOrder, hpl], e, by simp [createOrder, hpl]⟩
  | ok pr =>
    obtain ⟨pi, total⟩ := pr
    cases persistOk with
    | false =>
      right; left
      exact ⟨rfl, by simp [createOrder, hpl], by simp [createOrder, hpl]⟩
    | true =>
      right; right
      refine ⟨rfl, by simp [createOrder, hpl], ?_⟩
      exact ⟨{ id := if newId = "" then genId else newId,
               userID := orderRequest.userID, items := pi, totalAmount := total,
               status := "pending", createdAt := now, updatedAt := now },
             by simp [createOrder, hpl, mockOrderCreate]⟩

/-- Product store where p1 exists with stock 1 and p2 does not exist. -/
def lowStockState : ServiceState :=
  { products := [("p1", { id := "p1", name := "P1", description := "",
                          price := 10, stock := 1 })],
    orders := [] }

/-- Request whose first item over-requests p1 and whose second item
references the missing product p2. -/
def mixedRequest : Order :=
  { id := "", userID := "u1", items := [⟨"p1", 2, 0⟩, ⟨"p2", 1, 0⟩],
    totalAmount := 0, status := "", createdAt := 0, updatedAt := 0 }

/-- Claim C3 counterexample: `mixedRequest` contains an item referencing the
non-existent product p2, yet `CreateOrder` fails with the insufficient-stock
error of the earlier item, not with a not-found indication. -/
theorem createOrder_notfound_claim_counterexample :
    lookupA lowStockState.products "p2" = none ∧
    "p2" ∈ mixedRequest.items.map OrderItem.productID ∧
    (createOrder lowStockState mixedRequest "oid-3" "gid-3" 7 true true).result =
      .error (.insufficientStock "P1" 2 1) ∧
    (createOrder lowStockState mixedRequest "oid-3" "gid-3" 7 true true).result ≠
      .error (.productNotFound "p2") := by
  refine ⟨rfl, by simp [mixedRequest], rfl, ?_⟩
  have hres : (createOrder lowStockState mixedRequest "oid-3" "gid-3" 7 true true).result =
      .error (.insufficientStock "P1" 2 1) := rfl
  rw [hres]
  simp

/-- Claim C3 (amended): when the items up to the first offending one are all
valid, `CreateOrder` fails fast on that item — with a not-found error when
its product is missing, with an insufficient-stock error when it
over-requests stock — and in both cases the stores are unchanged and nothing
is persisted or published. -/
theorem createOrder_validation_failure
    (st : ServiceState) (orderRequest : Order) (newId genId : String)
    (now : Nat) (persistOk publishOk : Bool)
    (pre : List OrderItem) (bad : OrderItem) (rest : List OrderItem)
    (hsplit : orderRequest.items = pre ++ bad :: rest)
    (hpre : ∀ i ∈ pre, itemOk st.products i = true)
    (hbad : itemOk st.products bad = false) :
    (createOrder st orderRequest newId genId now persistOk publishOk).state = st ∧
    (createOrder st orderRequest newId genId now persistOk publishOk).trace = [] ∧
    (lookupA st.products bad.productID = none →
      (createOrder st orderRequest newId genId now persistOk publishOk).result =
        .error (.productNotFound bad.productID)) ∧
    (∀ p, lookupA st.products bad.productID = some p →
      (createOrder st orderRequest newId genId now persistOk publishOk).result =
        .error (.insufficientStock p.name bad.quantity p.stock)) := by
  have hred : processItemsLoop st.products orderRequest.items [] 0 =
      processItemsLoop st.products (bad :: rest)
        ([] ++ pre.map (snapshotItem st.products))
        (0 + itemsTotal st.products pre) := by
    rw [hsplit,
      processItemsLoop_append_of_valid st.products pre (bad :: rest) [] 0 hpre]
  unfold itemOk at hbad
  cases hl : lookupA st.products bad.productID with
  | none =>
    have herr : processItemsLoop st.products orderRequest.items [] 0 =
        .error (.productNotFound bad.productID) := by
      rw [hred]; simp [processItemsLoop, hl]
    refine ⟨by simp [createOrder, herr], by simp [createOrder, herr],
            fun _ => by simp [createOrder, herr], fun p hp => ?_⟩
    exact Option.noConfusion hp
  | some p =>
    rw [hl] at hbad
    have hstock : p.stock < bad.quantity := by simpa using hbad
    have herr : processItemsLoop st.products orderRequest.items [] 0 =
        .error (.insufficientStock p.name bad.quantity p.stock) := by
      rw [hred]; simp [processItemsLoop, hl, if_pos hstock]
    refine ⟨by simp [createOrder, herr], by simp [createOrder, herr],
            fun hn => ?_, fun q hq => ?_⟩
    · exact Option.noConfusion hn
    · injection hq with hq
      subst hq
      simp [createOrder, herr]

/-- Claim C3 (amended) witness: the first item of `mixedRequest` over-requests
stock, so the run fails with insufficient stock and changes nothing. -/
theorem createOrder_validation_failure_witness :
    (createOrder lowStockState mixedRequest "oid-4" "gid-4" 7 true true).state =
      lowStockState ∧
    (createOrder lowStockState mixedRequest "oid-4" "gid-4" 7 true true).trace = [] ∧
    (lookupA lowStockState.products (OrderItem.mk "p1" 2 0).productID = none →
      (createOrder lowStockState mixedRequest "oid-4" "gid-4" 7 true true).result =
        .error (.productNotFound (OrderItem.mk "p1" 2 0).productID)) ∧
    (∀ p, lookupA lowStockState.products (OrderItem.mk "p1" 2 0).productID = some p →
      (createOrder lowStockState mixedRequest "oid-4" "gid-4" 7 true true).result =
        .error (.insufficientStock p.name (OrderItem.mk "p1" 2 0).quantity p.stock)) :=
  createOrder_validation_failure lowStockState mixedRequest "oid-4" "gid-4" 7 true true
    [] ⟨"p1", 2, 0⟩ [⟨"p2", 1, 0⟩] rfl (by simp) (by decide)

/-- Claim C4: a status outside the enum is rejected with an invalid-status
error before the repository is called, and the order store is unchanged. -/
theorem updateOrderStatus_invalid_rejected
    (orders : List (String × Order)) (id status : String) (now : Nat)
    (h : validStatuses.contains status = false) :
    (updateOrderStatus orders id status now).result =
      .error (.invalidStatus status) ∧
    (updateOrderStatus orders id status now).repoCalled = false ∧
    (updateOrderStatus orders id status now).orders = orders := by
  have h' : status ∉ validStatuses := by simpa using h
  simp [updateOrderStatus, h']

/-- An order sitting in the store with status pending. -/
def pendingOrder : Order :=
  { id := "o1", userID := "u1", items := [], totalAmount := 0,
    status := "pending", createdAt := 0, updatedAt := 0 }

/-- Claim C4 witness: `UpdateOrderStatus` on the literal status bogus. -/
theorem updateOrderStatus_invalid_rejected_witness :
    (updateOrderStatus [("o1", pendingOrder)] "o1" "bogus" 9).result =
      .error (.invalidStatus "bogus") ∧
    (updateOrderStatus [("o1", pendingOrder)] "o1" "bogus" 9).repoCalled = false ∧
    (updateOrderStatus [("o1", pendingOrder)] "o1" "bogus" 9).orders =
      [("o1", pendingOrder)] :=
  updateOrderStatus_invalid_rejected [("o1", pendingOrder)] "o1" "bogus" 9 (by decide)

/-- An order already delivered. -/
def deliveredOrder : Order :=
  { id := "o2", userID := "u1", items := [], totalAmount := 0,
    status := "delivered", createdAt := 0, updatedAt := 0 }

/-- Claim C8 counterexample: the update path accepts the backward transition
delivered→pending and stores the new status, although the claim says every
transition outside the forward enum order must be rejected. -/
theorem updateOrderStatus_transition_counterexample :
    (updateOrderStatus [("o2", deliveredOrder)] "o2" "pending" 5).result = .ok () ∧
    lookupA (updateOrderStatus [("o2", deliveredOrder)] "o2" "pending" 5).orders "o2" =
      some { deliveredOrder with status := "pending", updatedAt := 5 } :=
  ⟨rfl, rfl⟩

/-- Claim C8 (amended): the update path enforces only membership of the new
status in the five-value enum: for an existing order any enum status is
accepted regardless of the current status (delivered→pending and
cancelled→shipped included) and the stored status becomes the requested one,
while a status outside the enum is rejected and the store is unchanged. -/
theorem updateOrderStatus_enum_membership_only
    (orders : List (String × Order)) (id status : String) (now : Nat)
    (o : Order) (ho : lookupA orders id = some o) :
    (validStatuses.contains status = true →
      (updateOrderStatus orders id status now).result = .ok () ∧
      lookupA (updateOrderStatus orders id status now).orders id =
        some { o with status := status, updatedAt := now }) ∧
    (validStatuses.contains status = false →
      (updateOrderStatus orders id status now).result =
        .error (.invalidStatus status) ∧
      (updateOrderStatus orders id status now).orders = orders) := by
  constructor
  · intro hs
    have hs' : status ∈ validStatuses := by simpa using hs
    simp [updateOrderStatus, hs', mockOrderUpdateStatus, ho, lookupA]
  · intro hs
    have hs' : status ∉ validStatuses := by simpa using hs
    simp [updateOrderStatus, hs']

/-- An order already cancelled. -/
def cancelledOrder : Order :=
  { id := "o3", userID := "u1", items := [], totalAmount := 0,
    status := "cancelled", createdAt := 0, updatedAt := 0 }

/-- Claim C8 (amended) witness: cancelled→shipped is accepted and stored. -/
theorem updateOrderStatus_enum_membership_only_witness :
    (validStatuses.contains "shipped" = true →
      (updateOrderStatus [("o3", cancelledOrder)] "o3" "shipped" 6).result = .ok () ∧
      lookupA (updateOrderStatus [("o3", cancelledOrder)] "o3" "shipped" 6).orders "o3" =
        some { cancelledOrder with status := "shipped", updatedAt := 6 }) ∧
    (validStatuses.contains "shipped" = false →
      (updateOrderStatus [("o3", cancelledOrder)] "o3" "shipped" 6).result =
        .error (.invalidStatus "shipped") ∧
      (updateOrderStatus [("o3", cancelledOrder)] "o3" "shipped" 6).orders =
        [("o3", cancelledOrder)]) :=
  updateOrderStatus_enum_membership_only [("o3", cancelledOrder)] "o3" "shipped" 6
    cancelledOrder rfl

/-- Claim C9: `CreateOrder` never mutates the product store, whether it
succeeds or fails. -/
theorem createOrder_products_unchanged (st : ServiceState)
    (orderRequest : Order) (newId genId : String) (now : Nat)
    (persistOk publishOk : Bool) :
    (createOrder st orderRequest newId genId now persistOk publishOk).state.products =
      st.products := by
  cases hpl : processItemsLoop st.products orderRequest.items [] 0 with
  | error e => simp [createOrder, hpl]
  | ok pr =>
    obtain ⟨pi, total⟩ := pr
    cases persistOk <;> simp [createOrder, hpl, mockOrderCreate]

/-- Claim C10: at the service level an empty item list is accepted:
`CreateOrder` persists an order with total 0, no items, status pending and
the freshly generated id, while the HTTP handler's own validation rejects the
same request before the service is reached. -/
theorem createOrder_empty_items
    (st : ServiceState) (orderRequest : Order) (newId genId : String)
    (now : Nat) (publishOk : Bool)
    (hitems : orderRequest.items = []) (hid : ¬ newId = "") :
    ∃ o : Order,
      (createOrder st orderRequest newId genId now true publishOk).result = .ok o ∧
      o.totalAmount = 0 ∧
      o.items = [] ∧
      o.status = "pending" ∧
      o.id = newId ∧
      lookupA (createOrder st orderRequest newId genId now true publishOk).state.orders
        newId = some o ∧
      handleCreateOrderRejects orderRequest = true := by
  refine ⟨{ id := newId, userID := orderRequest.userID, items := [],
            totalAmount := 0, status := "pending", createdAt := now,
            updatedAt := now },
          ?_, rfl, rfl, rfl, rfl, ?_, ?_⟩ <;>
    simp [createOrder, hitems, processItemsLoop, mockOrderCreate, hid, lookupA,
      handleCreateOrderRejects]

/-- A request with no items at all. -/
def emptyRequest : Order :=
  { id := "", userID := "u9", items := [], totalAmount := 0, status := "",
    createdAt := 0, updatedAt := 0 }

/-- Claim C10 witness: the empty request on the sample state. -/
theorem createOrder_empty_items_witness :
    ∃ o : Order,
      (createOrder sampleState emptyRequest "oid-5" "gid-5" 7 true true).result = .ok o ∧
      o.totalAmount = 0 ∧
      o.items = [] ∧
      o.status = "pending" ∧
      o.id = "oid-5" ∧
      lookupA (createOrder sampleState emptyRequest "oid-5" "gid-5" 7 true true).state.orders
        "oid-5" = some o ∧
      handleCreateOrderRejects emptyRequest = true :=
  createOrder_empty_items sampleState emptyRequest "oid-5" "gid-5" 7 true rfl
    (by decide)

/-- The order-created payload of the spec's worked scenario. -/
def sampleEventBody : JsonBody :=
  orderCreatedMessage
    { id := "o1", userID := "u1", items := [], totalAmount := 20,
      status := "pending", createdAt := 0, updatedAt := 0 }

/-- Claim C6 counterexample: the exchange/routing-key `Publish` path sets no
delivery mode (Go zero value, transient), so an order-created message
published through it — as `PublishOrderCreated` of the exchange variant does —
is not marked persistent. -/
theorem publish_not_persistent_counterexample :
    (clientPublish "order" "order.created" sampleEventBody).publishing.deliveryMode ≠
      amqpPersistent ∧
    (publishOrderCreatedV1 sampleEventBody).publishing.deliveryMode ≠
      amqpPersistent :=
  ⟨by decide, by decide⟩

/-- Claim C6 (amended): both order-created publish paths carry content-type
application/json and the JSON body of the payload, but only the
default-exchange `PublishOrderCreated` marks persistent delivery; the
exchange/routing-key `Publish` path leaves the delivery mode at the transient
zero value. -/
theorem publish_message_attributes (body : JsonBody) :
    (clientPublish "order" "order.created" body).publishing.contentType =
      "application/json" ∧
    (clientPublish "order" "order.created" body).publishing.body = body ∧
    (clientPublish "order" "order.created" body).publishing.deliveryMode = 0 ∧
    publishOrderCreatedV1 body = clientPublish "order" "order.created" body ∧
    (publishOrderCreatedV2 body).exchange = "" ∧
    (publishOrderCreatedV2 body).routingKey = "order_queue" ∧
    (publishOrderCreatedV2 body).publishing.contentType = "application/json" ∧
    (publishOrderCreatedV2 body).publishing.deliveryMode = amqpPersistent ∧
    (publishOrderCreatedV2 body).publishing.body = body :=
  ⟨rfl, rfl, rfl, rfl, rfl, rfl, rfl, rfl, rfl⟩

/-- Claim C7 counterexample: the exchange-variant consumer loop registers
with auto-ack enabled and reacts to every handler outcome — failures
included — with no manual ack or nack at all, contradicting the claimed
manual-acknowledgement discipline. -/
theorem consume_autoack_counterexample :
    consumeOrderEventsV1.autoAck = true ∧
    consumeOrderEventsV1.onDelivery false = .noAction ∧
    consumeOrderEventsV1.onDelivery true = .noAction :=
  ⟨rfl, rfl, rfl⟩

/-- Claim C7 (amended): the default-exchange consumer loop registers with
auto-ack disabled, acks every successfully handled delivery, nacks every
failed one with requeue enabled, and leaves no delivery without a reaction;
the exchange-variant loop instead registers with auto-ack enabled and never
issues a manual ack or nack. -/
theorem consume_ack_discipline :
    consumeOrderEventsV2.autoAck = false ∧
    consumeOrderEventsV2.onDelivery true = .ack false ∧
    consumeOrderEventsV2.onDelivery false = .nack false true ∧
    (∀ handlerOk, consumeOrderEventsV2.onDelivery handlerOk ≠ .noAction) ∧
    consumeOrderEventsV1.autoAck = true ∧
    (∀ handlerOk, consumeOrderEventsV1.onDelivery handlerOk = .noAction) := by
  refine ⟨rfl, rfl, rfl, ?_, rfl, fun _ => rfl⟩
  intro handlerOk
  cases handlerOk <;> simp [consumeOrderEventsV2]

